import Mathlib

/-!
Verification of the movie-catalogue web application.

The definitions below are a shallow embedding of the JavaScript source:
  - `src/models/Movie` (unnamed part_000, movie schema) and `src/models/User.js`,
  - `src/middleware/auth.js` (checkMovieOwnership),
  - `src/routes/movies.js` (list / filter / add / edit / delete handlers),
  - `src/routes/users.js` (register / login / logout handlers),
  - the passport local strategy (unnamed part_000).
MongoDB object ids are modelled as naturals, documents as Lean structures,
a collection as a `List`, and `Movie.find`, `findById`, `findByIdAndUpdate`,
`findByIdAndDelete` as the corresponding pure list operations.  Ratings are
parsed with `parseFloat`; the claims only compare ratings with the order, so
they are modelled as rationals.  Release years are parsed with `parseInt`
and modelled as integers.
-/

namespace MovieApp

/-- A persisted movie document (movie schema in the models file).
`createdAt` stands for the schema timestamp used for sorting. -/
structure Movie where
  id : Nat
  name : String
  description : String
  year : Int
  genres : List String
  rating : Rat
  coverImage : String
  userId : Nat
  createdAt : Nat
deriving DecidableEq, Repr

/-- A persisted user document (`src/models/User.js`); `password` holds the
bcrypt digest, never the raw password. -/
structure User where
  id : Nat
  name : String
  email : String
  password : String
deriving DecidableEq, Repr

/-- The genre enumeration, duplicated verbatim in the model file and in the
movie routes (`availableGenres`). -/
def availableGenres : List String :=
  ["Action", "Comedy", "Drama", "Horror",
   "Sci-Fi", "Romance", "Thriller", "Fantasy"]

/-- `Movie.findById`: MongoDB resolves an id to at most one document; on a
list model this is the first (and, with unique ids, only) match. -/
def findById (store : List Movie) (mid : Nat) : Option Movie :=
  store.find? (fun m => m.id == mid)

/-- Outcome of the ownership middleware `checkMovieOwnership`
(`src/middleware/auth.js`): flash-and-redirect for a missing movie, a
distinct flash-and-redirect for a foreign movie, or `next()`.  The success
constructor carries no movie because `next()` passes nothing to the
downstream handler. -/
inductive GuardResult where
  | notFound
  | forbidden
  | next
deriving DecidableEq, Repr

/-- `checkMovieOwnership` from `src/middleware/auth.js`: load the movie by
id, fail when it is absent, fail when `movie.userId.toString()` differs
from `req.user._id.toString()` (modelled as id equality), else `next()`. -/
def checkMovieOwnership (store : List Movie) (uid mid : Nat) : GuardResult :=
  match findById store mid with
  | none => .notFound
  | some m => if m.userId == uid then .next else .forbidden

/-- Database calls a request issues, used to count fetches. -/
inductive DbOp where
  | opFindById (mid : Nat)
  | opFindByIdAndDelete (mid : Nat)
deriving DecidableEq, Repr

/-- The ownership middleware performs exactly one `Movie.findById`. -/
def guardTrace (mid : Nat) : List DbOp := [.opFindById mid]

/-- The delete handler body (`POST /movies/delete/:id`): it fetches the
movie again with `Movie.findById` and then calls `findByIdAndDelete`. -/
def deleteHandlerTrace (mid : Nat) : List DbOp :=
  [.opFindById mid, .opFindByIdAndDelete mid]

/-- Database trace of a full `POST /movies/delete/:id` request: the
middleware always fetches once; the handler body runs only when the
middleware called `next()`. -/
def deleteRouteTrace (store : List Movie) (uid mid : Nat) : List DbOp :=
  guardTrace mid ++
    (match checkMovieOwnership store uid mid with
     | .next => deleteHandlerTrace mid
     | _ => [])

/-! ### String primitives

`String.toLower` and `String.trim` from the Lean core library do not reduce
inside the kernel, so the JavaScript string primitives `toLowerCase` and
`trim` are embedded as explicit character-list computations. -/

/-- JavaScript `s.toLowerCase()` on the strings the application handles. -/
def toLowerCase (s : String) : String := ⟨s.data.map Char.toLower⟩

/-- Characters removed by JavaScript `trim`. -/
def isWsp (c : Char) : Bool := c == ' ' || c == '\t' || c == '\n' || c == '\r'

/-- JavaScript `s.trim()`: strip leading and trailing whitespace. -/
def trimStr (s : String) : String :=
  ⟨((s.data.dropWhile isWsp).reverse.dropWhile isWsp).reverse⟩

/-! ### The name criterion of the filter route

`POST /movies/filter` matches the name with
`filter.name = \x7b $regex: name, $options: 'i' \x7d`: the submitted string is
handed to the MongoDB regular-expression engine unescaped, with the
case-insensitive option.  The engine itself is external to the repository;
it is modelled here on the fragment the claims exercise: every character is
a literal except the dot, which matches any single character.  On patterns
free of regular-expression metacharacters this fragment coincides with the
full engine. -/

/-- Does the pattern match a prefix of the text, a dot matching any
character and every other character matching literally? -/
def matchesAt : List Char → List Char → Bool
  | [], _ => true
  | _ :: _, [] => false
  | p :: ps, c :: cs => (p == '.' || p == c) && matchesAt ps cs

/-- Unanchored regular-expression search: try to match at every start
position, as the MongoDB `$regex` operator does. -/
def regexSearch (p : List Char) : List Char → Bool
  | [] => matchesAt p []
  | c :: cs => matchesAt p (c :: cs) || regexSearch p cs

/-- The name criterion of the filter route: case-insensitive (`$options:
'i'`) regular-expression search of the submitted pattern in the movie
name. -/
def nameMatches (pat recName : String) : Bool :=
  regexSearch (pat.data.map Char.toLower) (recName.data.map Char.toLower)

/-- Is the pattern a prefix of the text, character by character? -/
def isPrefixOfL : List Char → List Char → Bool
  | [], _ => true
  | _ :: _, [] => false
  | p :: ps, c :: cs => (p == c) && isPrefixOfL ps cs

/-- Does the pattern occur contiguously somewhere in the text? -/
def isInfixOfL (p : List Char) : List Char → Bool
  | [] => p.isEmpty
  | c :: cs => isPrefixOfL p (c :: cs) || isInfixOfL p cs

/-- Stated from the specification wording: the submitted name occurs as a
case-insensitive substring of the movie name. -/
def specNameSubstring (pat recName : String) : Bool :=
  isInfixOfL (pat.data.map Char.toLower) (recName.data.map Char.toLower)

/-- Characters with a non-literal meaning in the regular-expression
dialects MongoDB accepts. -/
def regexMetachars : List Char :=
  ['.', '*', '+', '?', '(', ')', '[', ']', '|', '^', '$', '\\']

/-! ### The filter query builder (`POST /movies/filter`)

The route destructures `name, genre, minYear, maxYear, minRating,
maxRating` from the request body and adds one clause per truthy field to a
filter object already containing `userId: req.user._id`.  A field is
modelled as `Option`: `none` stands for an absent or falsy (empty string)
submission, `some v` for a truthy one, the year bounds already through
`parseInt` and the rating bounds through `parseFloat`.  MongoDB evaluates
the filter object as the conjunction of its clauses. -/

structure FilterCriteria where
  name : Option String
  genre : Option String
  minYear : Option Int
  maxYear : Option Int
  minRating : Option Rat
  maxRating : Option Rat
deriving Repr

/-- Does a movie satisfy the filter object the route builds?  One clause
per truthy field: regex name search, genre membership unless the sentinel
`"all"`, and the four range bounds; plus the always-present owner clause. -/
def movieMatches (uid : Nat) (c : FilterCriteria) (m : Movie) : Bool :=
  (m.userId == uid)
  && (match c.name with
      | none => true
      | some n => nameMatches n m.name)
  && (match c.genre with
      | none => true
      | some g => if g == "all" then true else m.genres.contains g)
  && (match c.minYear with
      | none => true
      | some lo => decide (lo ≤ m.year))
  && (match c.maxYear with
      | none => true
      | some hi => decide (m.year ≤ hi))
  && (match c.minRating with
      | none => true
      | some lo => decide (lo ≤ m.rating))
  && (match c.maxRating with
      | none => true
      | some hi => decide (m.rating ≤ hi))

/-- Insert into a list kept sorted by `createdAt` descending. -/
def insertByCreated (m : Movie) : List Movie → List Movie
  | [] => [m]
  | x :: xs =>
      if x.createdAt ≤ m.createdAt then m :: x :: xs
      else x :: insertByCreated m xs

/-- `.sort(\x7b createdAt: -1 \x7d)`: newest first. -/
def sortByCreatedDesc : List Movie → List Movie
  | [] => []
  | x :: xs => insertByCreated x (sortByCreatedDesc xs)

/-- `Movie.find(filter).sort(\x7b createdAt: -1 \x7d)` as executed by
`POST /movies/filter`. -/
def filterMovies (store : List Movie) (uid : Nat) (c : FilterCriteria) :
    List Movie :=
  sortByCreatedDesc (store.filter (movieMatches uid c))

/-! ### Add and edit validation and handlers

The add and edit routes carry the same copy-pasted `express-validator`
chains (`src/routes/movies.js`).  The `genres` body field arrives as a
single string when one checkbox is ticked and as an array otherwise, which
the code probes with `Array.isArray`.  The `coverImage` chain delegates URL
well-formedness to the WHATWG `new URL` parser, external to the
repository, so the handlers take the verdict as a function parameter.  The
sanitizers `.trim().escape()` run after their checks and mutate the body;
the trim is modelled (`trimStr`), the HTML-entity escape is not, because no
claim depends on it. -/

/-- The raw `genres` request-body value. -/
inductive GenresInput where
  | one (s : String)
  | many (l : List String)
deriving DecidableEq, Repr

/-- `Array.isArray(genres) ? genres : [genres]`. -/
def genresRaw : GenresInput → List String
  | .one s => [s]
  | .many l => l

/-- The custom genres check of the routes: an array must be non-empty, a
string must be non-blank. -/
def genresCheck : GenresInput → Bool
  | .one s => decide (trimStr s ≠ "")
  | .many l => decide (0 < l.length)

/-- `genres.filter(genre => availableGenres.includes(genre))`: silently
drop submitted genres outside the enumeration. -/
def validGenresOf (g : GenresInput) : List String :=
  (genresRaw g).filter (fun s => availableGenres.contains s)

/-- The default cover image constant of the add and edit handlers. -/
def DEFAULT_IMAGE_URL : String :=
  "https://letsenhance.io/static/73136da51c245e80edc6ccfe44888a99/396e9/MainBefore.jpg"

/-- `coverImage && coverImage.trim() !== "" ? coverImage.trim() :
DEFAULT_IMAGE_URL`. -/
def coverOf (s : String) : String :=
  if trimStr s ≠ "" then trimStr s else DEFAULT_IMAGE_URL

/-- A movie form submission. `year` is the integer value of the `year`
field (a non-integer string is already rejected by `isInt` and never
reaches the range test), `rating` likewise through `isFloat`. -/
structure MovieForm where
  name : String
  description : String
  year : Int
  genres : GenresInput
  rating : Rat
  coverImage : String
deriving Repr

/-- The validation chains shared verbatim by `POST /movies/add` and
`POST /movies/edit/:id`: non-empty name, description of at least 10
characters, `isInt(\x7b min: 1900, max: 2025 \x7d)` on the year, the custom
genres check, `isFloat(\x7b min: 1, max: 10 \x7d)` on the rating, and blank
or well-formed `coverImage`. -/
def movieChecksPass (validUrl : String → Bool) (f : MovieForm) : Bool :=
  decide (f.name ≠ "")
  && decide (10 ≤ f.description.length)
  && decide (1900 ≤ f.year)
  && decide (f.year ≤ 2025)
  && genresCheck f.genres
  && decide (1 ≤ f.rating)
  && decide (f.rating ≤ 10)
  && (decide (trimStr f.coverImage = "") || validUrl f.coverImage)

/-- The movie-schema validation run by `newMovie.save()`: required
non-empty name and description (after the schema trim setter), description
of at least 10 characters, year 1900 to 2025, a non-empty genre list all of
whose members are in the enumeration, rating 1 to 10. -/
def movieSchemaValid (m : Movie) : Bool :=
  decide (trimStr m.name ≠ "")
  && decide (10 ≤ (trimStr m.description).length)
  && decide (1900 ≤ m.year)
  && decide (m.year ≤ 2025)
  && decide (0 < m.genres.length)
  && m.genres.all (fun g => availableGenres.contains g)
  && decide (1 ≤ m.rating)
  && decide (m.rating ≤ 10)

/-- Caller-visible outcome of a movie route: a re-render with field errors,
a flash-and-redirect for a missing movie, a success flash, or the generic
error flash of a `catch` block. -/
inductive Outcome where
  | validationError
  | notFound
  | success
  | genericError
deriving DecidableEq, Repr

/-- `POST /movies/add`: on validation failure re-render with errors and
persist nothing; otherwise build the document (genres filtered to the
enumeration, cover image defaulted, owner fixed to the requesting user) and
`save()` it, the schema validation turning an invalid document into the
generic `Error adding movie` flash with nothing persisted. -/
def addMovie (store : List Movie) (validUrl : String → Bool)
    (uid newId now : Nat) (f : MovieForm) : Outcome × List Movie :=
  if movieChecksPass validUrl f then
    let nm : Movie :=
      { id := newId
        name := trimStr f.name
        description := trimStr f.description
        year := f.year
        genres := validGenresOf f.genres
        rating := f.rating
        coverImage := coverOf f.coverImage
        userId := uid
        createdAt := now }
    if movieSchemaValid nm then (.success, store ++ [nm])
    else (.genericError, store)
  else (.validationError, store)

/-- The update document the edit handler passes to `findByIdAndUpdate`:
every schema field except `userId`. -/
structure MovieUpdate where
  name : String
  description : String
  year : Int
  genres : List String
  rating : Rat
  coverImage : String
deriving Repr

/-- Apply an update document to a matching movie: the listed fields are
replaced, `id`, `userId` and `createdAt` are untouched. -/
def applyUpdate (u : MovieUpdate) (m : Movie) : Movie :=
  { m with
    name := u.name
    description := u.description
    year := u.year
    genres := u.genres
    rating := u.rating
    coverImage := u.coverImage }

/-- `Movie.findByIdAndUpdate(id, fields)`: rewrite the matching document in
place and do nothing when no document matches.  Mongoose runs no schema
validators on an update by default (`runValidators` is not set), so the
update document is applied unconditionally. -/
def findByIdAndUpdate (store : List Movie) (mid : Nat) (u : MovieUpdate) :
    List Movie :=
  store.map (fun m => if m.id == mid then applyUpdate u m else m)

/-- The update document built by the edit handler from a validated form. -/
def updateOf (f : MovieForm) : MovieUpdate :=
  { name := trimStr f.name
    description := trimStr f.description
    year := f.year
    genres := validGenresOf f.genres
    rating := f.rating
    coverImage := coverOf f.coverImage }

/-- The `POST /movies/edit/:id` handler body (it runs after the ownership
middleware, against the store as it is at that moment): re-render on
validation failure, otherwise `findByIdAndUpdate` followed unconditionally
by the success flash - the handler never inspects whether a document was
matched. -/
def editHandler (store : List Movie) (mid : Nat) (validUrl : String → Bool)
    (f : MovieForm) : Outcome × List Movie :=
  if movieChecksPass validUrl f then
    (.success, findByIdAndUpdate store mid (updateOf f))
  else (.validationError, store)

/-- `Movie.findByIdAndDelete(id)`: remove the document with the id, a no-op
when none matches. -/
def findByIdAndDelete (store : List Movie) (mid : Nat) : List Movie :=
  store.filter (fun m => !(m.id == mid))

/-- The `POST /movies/delete/:id` handler body: fetch the movie, delete it,
then flash a success message interpolating `movie.name`.  When the fetch
returned `null` the interpolation throws, the `catch` block flashes the
generic `Error deleting movie`, and the request still redirects; the
delete call itself has already run (as a no-op). -/
def deleteHandler (store : List Movie) (mid : Nat) : Outcome × List Movie :=
  let fetched := findById store mid
  let store' := findByIdAndDelete store mid
  match fetched with
  | some _ => (.success, store')
  | none => (.genericError, store')

/-! ### Registration and login (`src/routes/users.js`, passport strategy)

`bcrypt.hash` and `bcrypt.compare` are external to the repository; the
handlers take the digest function, respectively the comparison verdict, as
a function parameter.  Neither claim about this component depends on the
digest itself. -/

/-- Outcome of the registration core. -/
inductive RegisterOutcome where
  | duplicateEmail
  | registered
deriving DecidableEq, Repr

/-- The post-validation core of `POST /users/register` (the cited lines):
look up an existing user by `email.toLowerCase()`; when one exists,
re-render with the duplicate-email error and touch nothing; otherwise hash
the password and persist the new user with the lowercased email. -/
def register (users : List User) (hash : String → String) (newId : Nat)
    (name email password : String) : RegisterOutcome × List User :=
  match users.find? (fun u => u.email == toLowerCase email) with
  | some _ => (.duplicateEmail, users)
  | none =>
      (.registered,
       users ++ [{ id := newId
                   name := name
                   email := toLowerCase email
                   password := hash password }])

/-- Result of the passport local strategy: a logged-in user, or a failure
whose message is flashed to the login page (`failureFlash: true`). -/
inductive LoginResult where
  | success (u : User)
  | failure (message : String)
deriving DecidableEq, Repr

/-- The passport `LocalStrategy` callback: look the user up by
`email.toLowerCase()`; an unknown email fails with
`That email is not registered`, a digest mismatch fails with
`Password incorrect`, a match logs the user in.  `compare` is the bcrypt
comparison. -/
def localStrategy (users : List User) (compare : String → String → Bool)
    (email password : String) : LoginResult :=
  match users.find? (fun u => u.email == toLowerCase email) with
  | none => .failure "That email is not registered"
  | some u =>
      if compare password u.password then .success u
      else .failure "Password incorrect"

/-! ### Sessions and logout -/

/-- The ephemeral session store: opaque token to user id.
Modelled from the spec: the session layer itself lives in the
`express-session` and `passport` packages, outside the repository; §4.2 of
the specification describes it as a process-wide map from opaque session
tokens to a minimal principal reference. -/
abbrev SessionStore : Type := List (String × Nat)

/-- Modelled from the spec: `terminate(token)` invalidates the session
reference for the token (what `req.logout` does on the external session
store), leaving every other token untouched. -/
def terminate (s : SessionStore) (t : String) : SessionStore :=
  List.filter (fun e => !(e.1 == t)) s

/-- Modelled from the spec: `resolve(token)` maps an unknown token to no
principal and otherwise re-hydrates the stored user id against the user
collection (the passport `deserializeUser` hook). -/
def resolve (s : SessionStore) (users : List User) (t : String) :
    Option User :=
  match List.find? (fun e => e.1 == t) s with
  | none => none
  | some e => users.find? (fun u => u.id == e.2)

/-- `GET /users/logout`: call `req.logout`, flash the success message and
redirect to the login page - unconditionally, whatever the session held. -/
def logoutRoute (s : SessionStore) (t : String) : SessionStore × String :=
  (terminate s t, "/users/login")

/-! ## Helper lemmas -/

/-- With pairwise-distinct keys, `find?` on a key equation returns exactly
the member carrying that key. -/
theorem find?_eq_some_of_key {α β : Type} [DecidableEq β] (f : α → β)
    (key : β) (l : List α) (hnd : (l.map f).Nodup) (a : α) (ha : a ∈ l)
    (hk : f a = key) : l.find? (fun x => f x == key) = some a := by
  induction l with
  | nil => cases ha
  | cons b bs ih =>
      simp only [List.map_cons, List.nodup_cons] at hnd
      rcases List.mem_cons.mp ha with rfl | hmem
      · simp [List.find?_cons, hk]
      · have hne : f b ≠ key := by
          intro hbk
          apply hnd.1
          rw [hbk, ← hk]
          exact List.mem_map_of_mem f hmem
        have hbeq : (f b == key) = false := by simpa using hne
        simp only [List.find?_cons, hbeq]
        exact ih hnd.2 hmem

/-! ## Claim C1: the authorization guard -/

/-- C1 (counterexample): the claim says that on an owner match the guard
returns the loaded record to the caller so that the caller needs no second
fetch.  On a one-movie store whose movie the requesting user owns, the
guard succeeds, yet the full delete request issues two `findById` fetches
for the same id - the middleware result carries no record and the handler
fetches again - so the number of fetches is not one. -/
theorem claim1_counterexample :
    checkMovieOwnership
        [⟨1, "Alpha", "0123456789", 1999, ["Drama"], 7, "img", 7, 0⟩] 7 1
      = GuardResult.next
    ∧ ¬ ((deleteRouteTrace
          [⟨1, "Alpha", "0123456789", 1999, ["Drama"], 7, "img", 7, 0⟩] 7 1).count
            (DbOp.opFindById 1) = 1) := by
  decide

/-- C1 (amended): for every store with pairwise-distinct ids, the guard
fails with `NotFound` exactly when no record has the requested id, succeeds
exactly when the record exists and its owner identifier equals the
principal identifier, and fails with `Forbidden` when the record exists
with a different owner; but on success it hands no record to the caller:
the delete route fetches the record by id twice. -/
theorem claim1_guard (store : List Movie) (uid mid : Nat)
    (hnd : (store.map (fun m => m.id)).Nodup) :
    (checkMovieOwnership store uid mid = .notFound ↔ ∀ m ∈ store, m.id ≠ mid)
    ∧ (∀ m ∈ store, m.id = mid →
        (checkMovieOwnership store uid mid = .next ↔ m.userId = uid))
    ∧ (∀ m ∈ store, m.id = mid → m.userId ≠ uid →
        checkMovieOwnership store uid mid = .forbidden)
    ∧ (checkMovieOwnership store uid mid = .next →
        (deleteRouteTrace store uid mid).count (DbOp.opFindById mid) = 2) := by
  refine ⟨?_, ?_, ?_, ?_⟩
  · unfold checkMovieOwnership findById
    cases hf : store.find? (fun m => m.id == mid) with
    | none =>
        simp only []
        constructor
        · intro _ m hm
          have := List.find?_eq_none.mp hf m hm
          simpa using this
        · intro _; trivial
    | some m' =>
        have hm' : m' ∈ store := List.mem_of_find?_eq_some hf
        have hid : m'.id = mid := by simpa using List.find?_some hf
        constructor
        · intro hcontr
          by_cases h : m'.userId == uid <;> simp [h] at hcontr
        · intro hall
          exact absurd hid (hall m' hm')
  · intro m hm hid
    have hf : store.find? (fun x => x.id == mid) = some m :=
      find?_eq_some_of_key (fun x => x.id) mid store hnd m hm hid
    unfold checkMovieOwnership findById
    rw [hf]
    by_cases h : m.userId = uid
    · simp [h]
    · simp [h]
  · intro m hm hid hne
    have hf : store.find? (fun x => x.id == mid) = some m :=
      find?_eq_some_of_key (fun x => x.id) mid store hnd m hm hid
    unfold checkMovieOwnership findById
    rw [hf]
    simp [hne]
  · intro h
    unfold deleteRouteTrace
    rw [h]
    unfold guardTrace deleteHandlerTrace
    simp [List.count_cons]

/-- C1 (witness): on a concrete one-movie store the id-uniqueness
hypothesis holds and the `NotFound` characterization is obtained from the
theorem. -/
theorem claim1_guard_witness :
    (([⟨1, "Alpha", "0123456789", 1999, ["Drama"], 7, "img", 7, 0⟩].map
        (fun (m : Movie) => m.id)).Nodup)
    ∧ (checkMovieOwnership
          [⟨1, "Alpha", "0123456789", 1999, ["Drama"], 7, "img", 7, 0⟩] 7 2
        = GuardResult.notFound
      ↔ ∀ m ∈ [(⟨1, "Alpha", "0123456789", 1999, ["Drama"], 7, "img", 7, 0⟩ : Movie)],
          m.id ≠ 2) :=
  ⟨by decide,
   (claim1_guard [⟨1, "Alpha", "0123456789", 1999, ["Drama"], 7, "img", 7, 0⟩]
      7 2 (by decide)).1⟩

/-! ## Claim C2: the filter query builder -/

/-- Insertion into the sorted-by-creation list preserves membership. -/
theorem mem_insertByCreated (a m : Movie) (l : List Movie) :
    a ∈ insertByCreated m l ↔ a = m ∨ a ∈ l := by
  induction l with
  | nil => simp [insertByCreated]
  | cons x xs ih =>
      unfold insertByCreated
      by_cases h : x.createdAt ≤ m.createdAt
      · simp [h]
      · simp only [h, if_false, List.mem_cons, ih]
        tauto

/-- Sorting by creation time preserves membership. -/
theorem mem_sortByCreatedDesc (a : Movie) (l : List Movie) :
    a ∈ sortByCreatedDesc l ↔ a ∈ l := by
  induction l with
  | nil => simp [sortByCreatedDesc]
  | cons x xs ih =>
      unfold sortByCreatedDesc
      rw [mem_insertByCreated]
      simp [ih]

/-- Insertion never yields the empty list. -/
theorem insertByCreated_ne_nil (m : Movie) (l : List Movie) :
    insertByCreated m l ≠ [] := by
  cases l with
  | nil => simp [insertByCreated]
  | cons x xs =>
      unfold insertByCreated
      by_cases h : x.createdAt ≤ m.createdAt <;> simp [h]

/-- Sorting yields the empty list only from the empty list. -/
theorem sortByCreatedDesc_eq_nil (l : List Movie) :
    sortByCreatedDesc l = [] ↔ l = [] := by
  cases l with
  | nil => simp [sortByCreatedDesc]
  | cons x xs =>
      unfold sortByCreatedDesc
      simp [insertByCreated_ne_nil]

/-- The genre clause of the filter object: satisfied exactly when the
submitted genre is the sentinel or belongs to the movie genre list. -/
theorem genreClause_iff (g : String) (m : Movie) :
    ((if g == "all" then true else m.genres.contains g) = true)
    ↔ (g ≠ "all" → g ∈ m.genres) := by
  by_cases h : g = "all" <;> simp [h]

/-- The filter object built by `POST /movies/filter` holds of a movie
exactly when the owner clause and every clause of a truthy criterion
hold. -/
theorem movieMatches_iff (uid : Nat) (c : FilterCriteria) (m : Movie) :
    movieMatches uid c m = true ↔
      (m.userId = uid
       ∧ (∀ n, c.name = some n → nameMatches n m.name = true)
       ∧ (∀ g, c.genre = some g → g ≠ "all" → g ∈ m.genres)
       ∧ (∀ lo, c.minYear = some lo → lo ≤ m.year)
       ∧ (∀ hi, c.maxYear = some hi → m.year ≤ hi)
       ∧ (∀ lo, c.minRating = some lo → lo ≤ m.rating)
       ∧ (∀ hi, c.maxRating = some hi → m.rating ≤ hi)) := by
  obtain ⟨cn, cg, cy1, cy2, cr1, cr2⟩ := c
  cases cn <;> cases cg <;> cases cy1 <;> cases cy2 <;> cases cr1 <;>
    cases cr2 <;>
    simp [movieMatches, Bool.and_eq_true, decide_eq_true_eq, beq_iff_eq,
      genreClause_iff] <;> tauto

/-- C2: the filtered list contains exactly the movies of the store that
belong to the requesting user and satisfy every truthy criterion - absent
criteria impose no constraint and present ones are conjoined with the
always-present owner clause - and an inverted year range or rating range
yields the empty list rather than an error. -/
theorem claim2_filter (store : List Movie) (uid : Nat) (c : FilterCriteria) :
    (∀ m, m ∈ filterMovies store uid c ↔
        (m ∈ store ∧ m.userId = uid
         ∧ (∀ n, c.name = some n → nameMatches n m.name = true)
         ∧ (∀ g, c.genre = some g → g ≠ "all" → g ∈ m.genres)
         ∧ (∀ lo, c.minYear = some lo → lo ≤ m.year)
         ∧ (∀ hi, c.maxYear = some hi → m.year ≤ hi)
         ∧ (∀ lo, c.minRating = some lo → lo ≤ m.rating)
         ∧ (∀ hi, c.maxRating = some hi → m.rating ≤ hi)))
    ∧ (∀ lo hi, c.minYear = some lo → c.maxYear = some hi → hi < lo →
        filterMovies store uid c = [])
    ∧ (∀ lo hi, c.minRating = some lo → c.maxRating = some hi → hi < lo →
        filterMovies store uid c = []) := by
  refine ⟨?_, ?_, ?_⟩
  · intro m
    rw [filterMovies, mem_sortByCreatedDesc, List.mem_filter,
      movieMatches_iff]
  · intro lo hi h1 h2 hlt
    rw [filterMovies, sortByCreatedDesc_eq_nil, List.filter_eq_nil_iff]
    intro m hm hmt
    have hc := (movieMatches_iff uid c m).mp hmt
    have hy1 := hc.2.2.2.1 lo h1
    have hy2 := hc.2.2.2.2.1 hi h2
    omega
  · intro lo hi h1 h2 hlt
    rw [filterMovies, sortByCreatedDesc_eq_nil, List.filter_eq_nil_iff]
    intro m hm hmt
    have hc := (movieMatches_iff uid c m).mp hmt
    have hr1 := hc.2.2.2.2.2.1 lo h1
    have hr2 := hc.2.2.2.2.2.2 hi h2
    exact absurd (hr1.trans hr2) (not_le.mpr hlt)

/-- C2 (witness): on the fixture store of the specification scenario an
inverted year range produces the empty list through the theorem. -/
theorem claim2_filter_witness :
    filterMovies
        [⟨1, "Alpha", "0123456789", 1999, ["Drama"], 7, "img", 5, 0⟩,
         ⟨2, "Beta", "0123456789", 2010, ["Action"], 9, "img", 5, 1⟩] 5
        ⟨none, none, some 2005, some 2000, none, none⟩ = [] :=
  (claim2_filter
      [⟨1, "Alpha", "0123456789", 1999, ["Drama"], 7, "img", 5, 0⟩,
       ⟨2, "Beta", "0123456789", 2010, ["Action"], 9, "img", 5, 1⟩] 5
      ⟨none, none, some 2005, some 2000, none, none⟩).2.1 2005 2000 rfl rfl
    (by decide)

/-! ## Claim C3: the name criterion -/

/-- On a dot-free pattern, anchored regex matching is character-wise prefix
testing. -/
theorem matchesAt_eq_isPrefixOfL (p : List Char) (s : List Char)
    (h : '.' ∉ p) : matchesAt p s = isPrefixOfL p s := by
  induction p generalizing s with
  | nil => cases s <;> rfl
  | cons x xs ih =>
      cases s with
      | nil => rfl
      | cons c cs =>
          have hx : x ≠ '.' := by
            intro hh
            exact h (by rw [hh]; exact List.mem_cons_self _ _)
          have hb : (x == '.') = false := by simpa using hx
          unfold matchesAt isPrefixOfL
          rw [hb, Bool.false_or,
            ih cs (fun hm => h (List.mem_cons_of_mem x hm))]

/-- On a dot-free pattern, unanchored regex search is substring
containment. -/
theorem regexSearch_eq_isInfixOfL (p : List Char) (s : List Char)
    (h : '.' ∉ p) : regexSearch p s = isInfixOfL p s := by
  induction s with
  | nil =>
      unfold regexSearch isInfixOfL
      cases p <;> rfl
  | cons c cs ih =>
      unfold regexSearch isInfixOfL
      rw [matchesAt_eq_isPrefixOfL p (c :: cs) h, ih]

/-- C3 (counterexample): the claim says the name criterion is satisfied
exactly by case-insensitive substring containment for every input string,
metacharacters included.  For the pattern `.` and the movie name `x` the
route predicate matches - the dot is a regex wildcard, the submitted string
reaches `$regex` unescaped - while `.` is not a substring of `x`. -/
theorem claim3_counterexample :
    ¬ (nameMatches "." "x" = true ↔ specNameSubstring "." "x" = true) := by
  decide

/-- C3 (amended): the name criterion interprets the submitted string as a
case-insensitive regular expression; on patterns free of
regular-expression metacharacters it coincides with case-insensitive
substring containment. -/
theorem claim3_name_criterion (pat recName : String)
    (h : ∀ ch ∈ pat.data.map Char.toLower, ch ∉ regexMetachars) :
    nameMatches pat recName = true ↔ specNameSubstring pat recName = true := by
  have hdot : '.' ∉ pat.data.map Char.toLower :=
    fun hm => h '.' hm (by decide)
  unfold nameMatches specNameSubstring
  rw [regexSearch_eq_isInfixOfL _ _ hdot]

/-- C3 (witness): a concrete metacharacter-free pattern where the regex
criterion and the substring reading agree through the theorem. -/
theorem claim3_name_criterion_witness :
    (∀ ch ∈ ("Alpha".data.map Char.toLower), ch ∉ regexMetachars)
    ∧ (nameMatches "Alpha" "the alpha movie" = true ↔
        specNameSubstring "Alpha" "the alpha movie" = true) :=
  ⟨by decide, claim3_name_criterion "Alpha" "the alpha movie" (by decide)⟩

/-! ## Claim C4: login failure indistinguishability -/

/-- C4 (counterexample): the claim says an unregistered email fails with
the same caller-visible error as a wrong password.  The login route runs
passport with `failureFlash: true`, so the strategy message is flashed to
the login page, and the two messages differ: an unknown email flashes
`That email is not registered`, a wrong password flashes
`Password incorrect`. -/
theorem claim4_counterexample :
    localStrategy [⟨1, "n", "a@b.c", "digest"⟩] (fun r h => r == h)
        "new@x.com" "pw"
      = LoginResult.failure "That email is not registered"
    ∧ localStrategy [⟨1, "n", "a@b.c", "digest"⟩] (fun r h => r == h)
        "a@b.c" "wrong"
      = LoginResult.failure "Password incorrect"
    ∧ LoginResult.failure "That email is not registered"
        ≠ LoginResult.failure "Password incorrect" := by
  decide

/-- C4 (amended): both failure cases do fail and redirect to the login
page, but with distinct flashed messages - `That email is not registered`
for an unknown email, `Password incorrect` for a digest mismatch - so the
two cases are distinguishable to the caller (user enumeration is
possible). -/
theorem claim4_login_failures (users : List User)
    (compare : String → String → Bool) (email password : String)
    (hnd : (users.map (fun u => u.email)).Nodup) :
    ((∀ u ∈ users, u.email ≠ toLowerCase email) →
      localStrategy users compare email password
        = .failure "That email is not registered")
    ∧ (∀ u ∈ users, u.email = toLowerCase email →
        compare password u.password = false →
        localStrategy users compare email password
          = .failure "Password incorrect")
    ∧ "That email is not registered" ≠ "Password incorrect" := by
  refine ⟨?_, ?_, by decide⟩
  · intro hnone
    have hf : users.find? (fun u => u.email == toLowerCase email) = none :=
      List.find?_eq_none.mpr (fun u hu => by simpa using hnone u hu)
    unfold localStrategy
    rw [hf]
  · intro u hu he hcmp
    have hf : users.find? (fun x => x.email == toLowerCase email) = some u :=
      find?_eq_some_of_key (fun x => x.email) (toLowerCase email) users hnd
        u hu he
    unfold localStrategy
    rw [hf]
    simp [hcmp]

/-- C4 (witness): the amended behaviour observed on a concrete store
through the theorem. -/
theorem claim4_login_failures_witness :
    (([(⟨1, "n", "a@b.c", "digest"⟩ : User)].map (fun u => u.email)).Nodup)
    ∧ ((∀ u ∈ [(⟨1, "n", "a@b.c", "digest"⟩ : User)],
          u.email ≠ toLowerCase "new@x.com") →
        localStrategy [⟨1, "n", "a@b.c", "digest"⟩] (fun r h => r == h)
            "new@x.com" "pw"
          = .failure "That email is not registered") :=
  ⟨by decide,
   (claim4_login_failures [⟨1, "n", "a@b.c", "digest"⟩] (fun r h => r == h)
      "new@x.com" "pw" (by decide)).1⟩

/-! ## Claim C5: duplicate registration -/

/-- C5: when the credential store already holds a principal whose
(lowercased) email equals the lowercase of the submitted email, the
registration core fails with the duplicate-email error and returns the
store unchanged: the first principal is untouched and nothing new is
persisted. -/
theorem claim5_duplicate_register (users : List User)
    (hash : String → String) (newId : Nat)
    (name2 email2 password2 : String)
    (h : ∃ u ∈ users, u.email = toLowerCase email2) :
    register users hash newId name2 email2 password2
      = (.duplicateEmail, users) := by
  obtain ⟨u, hu, he⟩ := h
  have hs : (users.find? (fun x => x.email == toLowerCase email2)).isSome :=
    List.find?_isSome.mpr ⟨u, hu, by simpa using he⟩
  unfold register
  cases hf : users.find? (fun x => x.email == toLowerCase email2) with
  | none => rw [hf] at hs; simp at hs
  | some w => rfl

/-- C5 (witness): a second registration whose email differs only in case
from a stored one fails with the duplicate error and leaves the store as
it was, through the theorem. -/
theorem claim5_duplicate_register_witness :
    (∃ u ∈ [(⟨1, "n", "a@b.c", "h"⟩ : User)],
        u.email = toLowerCase "A@B.C")
    ∧ register [(⟨1, "n", "a@b.c", "h"⟩ : User)] (fun s => s) 2 "m" "A@B.C"
        "pw" = (.duplicateEmail, [⟨1, "n", "a@b.c", "h"⟩]) :=
  ⟨⟨⟨1, "n", "a@b.c", "h"⟩, by decide⟩,
   claim5_duplicate_register [⟨1, "n", "a@b.c", "h"⟩] (fun s => s) 2 "m"
     "A@B.C" "pw" ⟨⟨1, "n", "a@b.c", "h"⟩, by decide⟩⟩

/-! ## Claim C6: the release-year bounds -/

/-- The shared validation chain passes exactly when every field condition
holds, the year condition being the inclusive 1900 to 2025 range. -/
theorem movieChecksPass_iff (validUrl : String → Bool) (f : MovieForm) :
    movieChecksPass validUrl f = true ↔
      (f.name ≠ "" ∧ 10 ≤ f.description.length
       ∧ 1900 ≤ f.year ∧ f.year ≤ 2025
       ∧ genresCheck f.genres = true
       ∧ 1 ≤ f.rating ∧ f.rating ≤ 10
       ∧ (trimStr f.coverImage = "" ∨ validUrl f.coverImage = true)) := by
  unfold movieChecksPass
  simp only [Bool.and_eq_true, Bool.or_eq_true, decide_eq_true_eq]
  tauto

/-- C6: a submission whose year lies outside 1900 to 2025 fails validation
on the add path and on the edit path with nothing persisted, and the
validation chain accepts exactly when the year is within the inclusive
range (together with the other field conditions). -/
theorem claim6_year_bounds (store : List Movie) (validUrl : String → Bool)
    (uid newId now mid : Nat) (f : MovieForm) :
    ((f.year < 1900 ∨ 2025 < f.year) →
      addMovie store validUrl uid newId now f = (.validationError, store)
      ∧ editHandler store mid validUrl f = (.validationError, store))
    ∧ (movieChecksPass validUrl f = true ↔
        (f.name ≠ "" ∧ 10 ≤ f.description.length
         ∧ 1900 ≤ f.year ∧ f.year ≤ 2025
         ∧ genresCheck f.genres = true
         ∧ 1 ≤ f.rating ∧ f.rating ≤ 10
         ∧ (trimStr f.coverImage = "" ∨ validUrl f.coverImage = true))) := by
  refine ⟨?_, movieChecksPass_iff validUrl f⟩
  intro hy
  have hnot : ¬ (movieChecksPass validUrl f = true) := by
    intro ht
    rcases (movieChecksPass_iff validUrl f).mp ht with ⟨_, _, h3, h4, _⟩
    omega
  constructor
  · unfold addMovie
    simp [hnot]
  · unfold editHandler
    simp [hnot]

/-- C6 (witness): a concrete 1800 submission is rejected on both paths
through the theorem. -/
theorem claim6_year_bounds_witness :
    addMovie [] (fun _ => true) 7 1 0
        ⟨"N", "0123456789", 1800, .many ["Drama"], 5, ""⟩
      = (.validationError, [])
    ∧ editHandler [] 1 (fun _ => true)
        ⟨"N", "0123456789", 1800, .many ["Drama"], 5, ""⟩
      = (.validationError, []) :=
  (claim6_year_bounds [] (fun _ => true) 7 1 0 1
      ⟨"N", "0123456789", 1800, .many ["Drama"], 5, ""⟩).1
    (Or.inl (by decide))

/-! ## Claim C7: owner immutability -/

/-- C7: the edit handler changes neither the id nor the owner reference of
any stored record - the update document carries name, description, year,
genres, rating and cover image only - while, when validation passes, the
targeted record does receive exactly those new field values; and every
record the add path persists beyond the existing ones carries the
requesting user as owner. -/
theorem claim7_owner_immutable (store : List Movie) (mid : Nat)
    (validUrl : String → Bool) (f : MovieForm) (uid newId now : Nat) :
    ((editHandler store mid validUrl f).2.map (fun m => (m.id, m.userId))
      = store.map (fun m => (m.id, m.userId)))
    ∧ (movieChecksPass validUrl f = true → ∀ m ∈ store, m.id = mid →
        applyUpdate (updateOf f) m ∈ (editHandler store mid validUrl f).2)
    ∧ (∀ m ∈ (addMovie store validUrl uid newId now f).2,
        m ∈ store ∨ m.userId = uid) := by
  refine ⟨?_, ?_, ?_⟩
  · by_cases hp : movieChecksPass validUrl f = true
    · simp only [editHandler, hp, if_true]
      rw [findByIdAndUpdate, List.map_map]
      apply List.map_congr_left
      intro m hm
      by_cases h : m.id = mid <;> simp [h, applyUpdate]
    · simp [editHandler, hp]
  · intro hp m hm hid
    simp only [editHandler, hp, if_true]
    unfold findByIdAndUpdate
    exact List.mem_map.mpr ⟨m, hm, by simp [hid]⟩
  · intro m hm
    unfold addMovie at hm
    split at hm
    · dsimp only [] at hm
      split at hm
      · rcases List.mem_append.mp hm with h | h
        · exact Or.inl h
        · right
          rw [List.mem_singleton.mp h]
      · exact Or.inl hm
    · exact Or.inl hm

/-- C7 (witness): editing a concrete one-record store preserves the id and
owner pairing, through the theorem. -/
theorem claim7_owner_immutable_witness :
    ((editHandler [⟨1, "Alpha", "0123456789", 1999, ["Drama"], 7, "img", 7, 0⟩]
        1 (fun _ => true)
        ⟨"New", "0123456789", 2001, .many ["Action"], 6, ""⟩).2.map
          (fun m => (m.id, m.userId))
      = [⟨1, "Alpha", "0123456789", 1999, ["Drama"], 7, "img", 7, 0⟩].map
          (fun (m : Movie) => (m.id, m.userId))) :=
  (claim7_owner_immutable
      [⟨1, "Alpha", "0123456789", 1999, ["Drama"], 7, "img", 7, 0⟩] 1
      (fun _ => true) ⟨"New", "0123456789", 2001, .many ["Action"], 6, ""⟩
      7 2 1).1

/-! ## Claim C8: mutations on a vanished record -/

/-- C8 (counterexample): the claim says a mutation whose target no longer
exists surfaces NotFound.  On the empty store, a valid edit reports
success (the handler never inspects the `findByIdAndUpdate` result) and a
delete reports the generic `Error deleting movie` (the success flash
dereferences the `null` fetch and the catch block takes over); neither is
NotFound. -/
theorem claim8_counterexample :
    editHandler [] 1 (fun _ => true)
        ⟨"New", "0123456789", 2001, .many ["Drama"], 6, ""⟩
      = (Outcome.success, [])
    ∧ Outcome.success ≠ Outcome.notFound
    ∧ deleteHandler [] 1 = (Outcome.genericError, [])
    ∧ Outcome.genericError ≠ Outcome.notFound := by
  decide

/-- C8 (amended): when no record carries the targeted id at mutation time,
the store is left exactly as it is - no corruption - but the caller does
not see NotFound: a validating edit reports success as a silent no-op, and
a delete reports the generic deletion error. -/
theorem claim8_missing_target (store : List Movie) (mid : Nat)
    (validUrl : String → Bool) (f : MovieForm)
    (h : ∀ m ∈ store, m.id ≠ mid) :
    editHandler store mid validUrl f
      = ((if movieChecksPass validUrl f then Outcome.success
          else Outcome.validationError), store)
    ∧ deleteHandler store mid = (.genericError, store) := by
  have hupd : findByIdAndUpdate store mid (updateOf f) = store := by
    unfold findByIdAndUpdate
    have heq : store.map
        (fun m => if m.id == mid then applyUpdate (updateOf f) m else m)
        = store.map id :=
      List.map_congr_left (fun m hm => by simp [h m hm])
    simpa using heq
  constructor
  · by_cases hp : movieChecksPass validUrl f = true
    · simp [editHandler, hp, hupd]
    · simp [editHandler, hp]
  · have hfind : findById store mid = none :=
      List.find?_eq_none.mpr (fun m hm => by simpa using h m hm)
    have hdel : findByIdAndDelete store mid = store := by
      unfold findByIdAndDelete
      rw [List.filter_eq_self]
      intro m hm
      simpa using h m hm
    unfold deleteHandler
    rw [hfind, hdel]

/-- C8 (witness): the amended behaviour on the empty store through the
theorem. -/
theorem claim8_missing_target_witness :
    editHandler [] 1 (fun _ => true)
        ⟨"New", "0123456789", 2001, .many ["Drama"], 6, ""⟩
      = ((if movieChecksPass (fun _ => true)
            ⟨"New", "0123456789", 2001, .many ["Drama"], 6, ""⟩
          then Outcome.success else Outcome.validationError), [])
    ∧ deleteHandler [] 1 = (.genericError, []) :=
  claim8_missing_target [] 1 (fun _ => true)
    ⟨"New", "0123456789", 2001, .many ["Drama"], 6, ""⟩
    (fun m hm => absurd hm (List.not_mem_nil m))

/-! ## Claim C9: logout idempotence -/

/-- C9: terminating a token that holds no session leaves the session store
unchanged, terminating twice equals terminating once, a terminated token
resolves to no principal, and the logout route on an already-terminated
token still completes with the unchanged store and the login redirect. -/
theorem claim9_logout_idempotent (s : SessionStore) (users : List User)
    (t : String) :
    ((∀ e ∈ s, e.1 ≠ t) → terminate s t = s)
    ∧ terminate (terminate s t) t = terminate s t
    ∧ resolve (terminate s t) users t = none
    ∧ logoutRoute (terminate s t) t = (terminate s t, "/users/login") := by
  have hid : terminate (terminate s t) t = terminate s t := by
    unfold terminate
    rw [List.filter_eq_self]
    intro e he
    exact (List.mem_filter.mp he).2
  refine ⟨?_, hid, ?_, ?_⟩
  · intro h
    unfold terminate
    rw [List.filter_eq_self]
    intro e he
    simpa using h e he
  · unfold resolve
    have hf : List.find? (fun e => e.1 == t) (terminate s t) = none := by
      apply List.find?_eq_none.mpr
      intro e he
      have hb := (List.mem_filter.mp he).2
      simpa using hb
    rw [hf]
  · unfold logoutRoute
    rw [hid]

/-- C9 (witness): a token with no session is a no-op to terminate and
resolves to no principal, through the theorem. -/
theorem claim9_logout_idempotent_witness :
    terminate [("a", 1)] "b" = [("a", 1)]
    ∧ resolve (terminate [("a", 1)] "b") [] "b" = none :=
  ⟨(claim9_logout_idempotent [("a", 1)] [] "b").1 (by decide),
   (claim9_logout_idempotent [("a", 1)] [] "b").2.2.1⟩

/-! ## Claim C10: the genre-set invariant -/

/-- C10 (code bug): an all-invalid, non-empty genre submission passes the
route validation and, on the add path, fails at `save()` with the generic
error and nothing persisted, exactly as the claim says; but on the edit
path `findByIdAndUpdate` runs no schema validators, so the same submission
is applied, reported as a success, and leaves a persisted record whose
genre set is empty - violating the non-empty-valid-subset invariant the
movie schema itself declares. -/
theorem claim10_genre_invariant_bug :
    movieChecksPass (fun _ => false)
        ⟨"New", "0123456789", 2001, .many ["Western"], 6, ""⟩ = true
    ∧ addMovie [⟨1, "Old", "0123456789", 2000, ["Drama"], 5, "img", 7, 0⟩]
        (fun _ => false) 7 2 1
        ⟨"New", "0123456789", 2001, .many ["Western"], 6, ""⟩
      = (.genericError,
         [⟨1, "Old", "0123456789", 2000, ["Drama"], 5, "img", 7, 0⟩])
    ∧ editHandler
        [⟨1, "Old", "0123456789", 2000, ["Drama"], 5, "img", 7, 0⟩] 1
        (fun _ => false)
        ⟨"New", "0123456789", 2001, .many ["Western"], 6, ""⟩
      = (.success,
         [⟨1, "New", "0123456789", 2001, [], 6, DEFAULT_IMAGE_URL, 7, 0⟩])
    ∧ (∃ m ∈ (editHandler
          [⟨1, "Old", "0123456789", 2000, ["Drama"], 5, "img", 7, 0⟩] 1
          (fun _ => false)
          ⟨"New", "0123456789", 2001, .many ["Western"], 6, ""⟩).2,
        m.genres = []) := by
  decide

end MovieApp
